import Mathlib

/-!
Shallow embedding of the Pelm SDK (`src/index.ts`).

Modelling conventions:
* A parsed JSON response is a finite association list of string-valued
  fields (the SDK only ever reads string token fields from responses, and
  opaque payloads are never inspected).
* The transport (`fetch` + `response.json()`) is a `World` function from
  requests to `Except err Json`; a rejection of either step is `.error`.
* Every SDK operation is interpreted as `World → List Request × Except err α`:
  the ordered list of HTTP requests it issues together with its result.
  Sequential `await` chains concatenate traces and short-circuit on
  rejection; `Promise.all` fires all requests and joins the results.
* JavaScript numbers are modelled as rationals; `Number.prototype.toString`
  is modelled as exact decimal rendering, which agrees with JavaScript on
  the finite-decimal values this SDK produces (Unix-millisecond values
  divided by 1000).
* A JavaScript `Date` is its epoch-millisecond time value, an integer
  (valid dates have |ms| ≤ 8.64e15; invalid dates are outside the model).
-/

namespace Pelm

/-- A parsed JSON object, restricted to the string-valued fields the SDK
reads. Lookup of a missing key models JavaScript property access yielding
`undefined` (`none`). -/
abbrev Json := List (String × String)

/-- JavaScript property read `obj.key`: first binding wins, a missing key
gives `undefined` (`none`). -/
def jsGet (j : Json) (k : String) : Option String :=
  (j.find? (fun p => p.1 == k)).map (fun p => p.2)

/-- String coercion of a possibly-`undefined` value, as performed by a
template literal or form-data append: `undefined` renders as "undefined". -/
def undefToString : Option String → String
  | some s => s
  | none => "undefined"

/-- An outbound HTTP request: `body` is the multipart form-data field list
for POSTs (empty for GETs, which carry no body), `headers` is the header
list exactly as passed to `fetch`. -/
structure Request where
  url : String
  method : String
  body : List (String × String)
  headers : List (String × String)
deriving DecidableEq, Repr

/-- The transport: `fetch` composed with `response.json()`. -/
def World : Type := Request → Except String Json

/-- The effect of one SDK operation: given the transport, the ordered list
of requests it issues and its result (or propagated rejection). -/
def M (α : Type) : Type := World → List Request × Except String α

/-- Sequential `await`: the continuation starts only after the first
operation resolves; a rejection short-circuits and issues no further
requests. -/
def mbind {α β : Type} (x : M α) (f : α → M β) : M β := fun w =>
  match x w with
  | (t, .error e) => (t, .error e)
  | (t, .ok a) =>
    let (t2, r) := f a w
    (t ++ t2, r)

/-- Resolving an operation value without further requests. -/
def mmap {α β : Type} (g : α → β) (x : M α) : M β := fun w =>
  let (t, r) := x w
  (t, r.map g)

/-- Source `postRequest`: form-encoded POST, JSON-decoded response. -/
def postRequest (url : String) (body : List (String × String))
    (headers : List (String × String)) : M Json :=
  fun w =>
    let r : Request := ⟨url, "POST", body, headers⟩
    ([r], w r)

/-- Source `getRequest`: GET with the given headers, JSON-decoded
response.  A GET carries no body. -/
def getRequest (url : String) (headers : List (String × String)) : M Json :=
  fun w =>
    let r : Request := ⟨url, "GET", [], headers⟩
    ([r], w r)

/-- The module-level credential state `pelmClientId` / `pelmSecret`, set by
the `PelmSDK` factory and read by the operations. -/
structure Creds where
  pelmClientId : String
  pelmSecret : String
deriving DecidableEq, Repr

end Pelm

namespace Pelm

/-- ASCII lowercasing of one character (HTTP header names are ASCII). -/
def asciiLower (ch : Char) : Char :=
  if 65 ≤ ch.toNat ∧ ch.toNat ≤ 90 then
    Char.ofNat (ch.toNat + 32)
  else ch

/-- ASCII lowercasing of a header name, used to compare HTTP header names
case-insensitively (RFC 9110: field names are case-insensitive). -/
def lowerName (s : String) : String :=
  String.mk (s.data.map asciiLower)

end Pelm

namespace Pelm

/-- Source `getConnectToken`: POST to the connect-token endpoint
with the user id as form field and the client credentials as headers;
extracts the `connect_token` field of the JSON body (possibly
`undefined`). -/
def getConnectToken (c : Creds) (pelmUserId : String) : M (Option String) :=
  mmap (fun response => jsGet response "connect_token")
    (postRequest "https://api.pelm.com/auth/connect-token"
      [("user_id", pelmUserId)]
      [("accept", "application/json"),
       ("pelm-client-id", c.pelmClientId),
       ("pelm-secret", c.pelmSecret)])

/-- Source `getAuthCode`: POST to the connect endpoint with the
utility credentials as form fields and the connect token as Bearer
authorization header; extracts `authorization_code`.  Note the request
carries no `pelm-client-id`/`pelm-secret` headers. -/
def getAuthCode (utilityProviderCode username password connectToken : String) :
    M (Option String) :=
  mmap (fun response => jsGet response "authorization_code")
    (postRequest "https://api.pelm.com/connect"
      [("utility_id", utilityProviderCode),
       ("username", username),
       ("password", password)]
      [("accept", "application/json"),
       ("authorization", "Bearer " ++ connectToken)])

/-- Source `getAccessToken`: POST to the token endpoint with the
auth code as form field and the client credentials as headers; extracts
`access_token`. -/
def getAccessToken (c : Creds) (authCode : String) : M (Option String) :=
  mmap (fun response => jsGet response "access_token")
    (postRequest "https://api.pelm.com/auth/token"
      [("code", authCode)]
      [("accept", "application/json"),
       ("pelm-client-id", c.pelmClientId),
       ("pelm-secret", c.pelmSecret)])

/-- Source `getOrCreatePelmToken`: the three pipeline steps chained
by sequential `await`; an intermediate value that is `undefined` is coerced
to the string "undefined" where the next step interpolates or sends it,
as JavaScript does. -/
def getOrCreatePelmToken (c : Creds)
    (providerCode pelmUserId username password : String) : M (Option String) :=
  mbind (getConnectToken c pelmUserId) (fun connectToken =>
    mbind (getAuthCode providerCode username password (undefToString connectToken))
      (fun authCode => getAccessToken c (undefToString authCode)))

/-- Source `getPelmAccounts`: GET to the accounts endpoint with
Bearer token and client credentials as headers (header names capitalized
in the source).  The response is returned as parsed JSON; the TypeScript
`AccountsResponse[]` annotation is an unchecked cast. -/
def getPelmAccounts (c : Creds) (pelmAccessToken : String) : M Json :=
  getRequest "https://api.pelm.com/accounts"
    [("Authorization", "Bearer " ++ pelmAccessToken),
     ("Pelm-Client-Id", c.pelmClientId),
     ("Pelm-Secret", c.pelmSecret)]

/-- Source `getBillsPelm`: GET to the bills endpoint with Bearer
token and client credentials as headers. -/
def getBillsPelm (c : Creds) (pelmAccessToken : String) : M Json :=
  getRequest "https://api.pelm.com/bills"
    [("Authorization", "Bearer " ++ pelmAccessToken),
     ("Pelm-Client-Id", c.pelmClientId),
     ("Pelm-Secret", c.pelmSecret)]

/-- Joining the results of concurrently resolved operations, as
`Promise.all` does: success is the list of all values in index order,
any rejection rejects the whole (the model reports the first rejection in
index order; which rejection reason wins is timing-dependent in
JavaScript, but whether the aggregate rejects is not). -/
def collectAll : List (Except String Json) → Except String (List Json)
  | [] => .ok []
  | .error e :: _ => .error e
  | .ok j :: rest => (collectAll rest).map (fun js => j :: js)

/-- Model of `Promise.all` over a list of already-fired operations: every request of
every operation is issued (in map index order), and the results are
joined by `collectAll`. -/
def promiseAll (xs : List (M Json)) : M (List Json) := fun w =>
  ((xs.map (fun x => (x w).1)).flatten,
   collectAll (xs.map (fun x => (x w).2)))

/-- Source `getBillPdfs`: one GET per bill id, all fired
concurrently via `Promise.all` over the mapped ids; each carries the
accept-pdf header, the Bearer token and the client credentials. -/
def getBillPdfs (c : Creds) (pelmAccessToken : String)
    (pelmBillIds : List String) : M (List Json) :=
  promiseAll (pelmBillIds.map (fun billId =>
    getRequest ("https://api.pelm.com/bills/" ++ billId ++ "/pdf")
      [("accept", "application/pdf"),
       ("authorization", "Bearer " ++ pelmAccessToken),
       ("pelm-client-id", c.pelmClientId),
       ("pelm-secret", c.pelmSecret)]))

/-- A JavaScript `Date`, identified with its epoch-millisecond time value
(`getTime()`), an integer for valid dates. -/
structure JsDate where
  ms : Int
deriving DecidableEq, Repr

/-- Decimal digits of the fractional part `fr / d` (0 < fr < d), most
significant first, stopping when the remainder hits zero; `fuel` bounds the
number of digits (ample for the thousandths this SDK produces). -/
def fracStr : Nat → Nat → Nat → String
  | 0, _, _ => ""
  | _, 0, _ => ""
  | fuel + 1, fr + 1, d =>
      let fr10 := (fr + 1) * 10
      toString (fr10 / d) ++ fracStr fuel (fr10 % d) d

/-- Model of `Number.prototype.toString` on the rational model of a JavaScript
number: sign, integer part, then fractional decimal digits without
trailing zeros.  Agrees with JavaScript on integers and finite decimals in
plain (non-exponential) range, which covers every value this SDK renders. -/
def jsNumToString (q : ℚ) : String :=
  let sign := if q.num < 0 then "-" else ""
  let n := q.num.natAbs
  let d := q.den
  if n % d = 0 then sign ++ toString (n / d)
  else sign ++ toString (n / d) ++ "." ++ fracStr 100 (n % d) d

/-- The date-to-number conversion of `getPelmIntervals`:
`date?.getTime() ? date.getTime() / 1000 : 0`.  An absent date, and also a
date whose time value is 0 (falsy), yield 0; otherwise the millisecond
value divided by 1000. -/
def dateParam : Option JsDate → ℚ
  | none => 0
  | some d => if d.ms ≠ 0 then (d.ms : ℚ) / 1000 else 0

/-- Source `getPelmIntervals`: a single GET to the intervals
endpoint.  Note the source passes `account_id`, `start_date` and
`end_date` inside the same object as the authorization and credential
headers — the second argument of `getRequest`, which becomes the `fetch`
headers; the GET has no body and the URL carries no query string. -/
def getPelmIntervals (c : Creds) (pelmAccountId pelmToken : String)
    (startDate endDate : Option JsDate) : M Json :=
  getRequest "https://api.pelm.com/intervals"
    [("account_id", pelmAccountId),
     ("start_date", jsNumToString (dateParam startDate)),
     ("end_date", jsNumToString (dateParam endDate)),
     ("authorization", "Bearer " ++ pelmToken),
     ("pelm-client-id", c.pelmClientId),
     ("pelm-secret", c.pelmSecret)]

/-- Source `PelmTypes.UsageUnit`. -/
inductive UsageUnit
  | kwh | mwh | therm
deriving DecidableEq, Repr

/-- The literal type `"therm"` of the `gas_usage_unit` field. -/
inductive GasUsageUnit
  | therm
deriving DecidableEq, Repr

/-- The union type of the `ghg_emission_unit` field. -/
inductive GhgEmissionUnit
  | kg_co2e_per_kwh | kg_co2
deriving DecidableEq, Repr

/-- Source `PelmTypes.AccountsResponse`. -/
structure AccountsResponse where
  id : String
  account_number : String
  address : String
  available_meter_types : List String
  usage_unit : UsageUnit
  gas_usage_unit : GasUsageUnit
  ghg_emission_unit : GhgEmissionUnit
deriving DecidableEq, Repr

/-- Source `PelmTypes.PelmUsageInterval`; numeric fields are the
rational model of JavaScript numbers. -/
structure PelmUsageInterval where
  start : JsDate
  «end» : JsDate
  usage : ℚ
  ghg_emissions : ℚ
deriving DecidableEq

/-- Source `PelmTypes.IntervalsResponse`. -/
structure IntervalsResponse where
  utility : String
  account : AccountsResponse
  intervals : List PelmUsageInterval
deriving DecidableEq

/-- Source `PelmCharges`. -/
structure PelmCharges where
  electric_charges : ℚ
  gas_charges : ℚ
  other_charges : ℚ
deriving DecidableEq

/-- Source `PelmTypes.PelmBill`. -/
structure PelmBill where
  id : String
  account_id : String
  start_date : String
  end_date : String
  statement_date : String
  due_date : String
  payment_date : String
  total_amount_due : ℚ
  total_charges : ℚ
  charges : PelmCharges
  electric_usage_kwh : ℚ
  gas_usage_therm : ℚ
deriving DecidableEq

/-- Source `PelmTypes.BillsResponse`. -/
structure BillsResponse where
  account_id : String
  bills : List PelmBill
deriving DecidableEq

/-- The `TotalUandE` interface of the source. -/
structure TotalUandE where
  totalUsage : ℚ
  totalEmissions : ℚ
deriving DecidableEq, Repr

/-- Source `totalUsageIntervals`: two `reduce` folds over the
interval list, each with initial accumulator 0.  The source function is
`async` but performs no request and touches no state, so it is modelled as
a pure function. -/
def totalUsageIntervals (accountsAndIntervals : IntervalsResponse) : TotalUandE :=
  { totalUsage :=
      accountsAndIntervals.intervals.foldl
        (fun accumulator interval => accumulator + interval.usage) 0
    totalEmissions :=
      accountsAndIntervals.intervals.foldl
        (fun accumulator interval => accumulator + interval.ghg_emissions) 0 }

/-- The bundle of operations returned by the `PelmSDK` factory. -/
structure SDKBundle where
  getConnectToken : String → M (Option String)
  getAuthCode : String → String → String → String → M (Option String)
  getAccessToken : String → M (Option String)
  getBillPdfs : String → List String → M (List Json)
  getBillsPelm : String → M Json
  getPelmAccounts : String → M Json
  getPelmIntervals : String → String → Option JsDate → Option JsDate → M Json
  totalUsageIntervals : IntervalsResponse → TotalUandE
  getOrCreatePelmToken : String → String → String → String → M (Option String)

/-- The `PelmSDK` factory of the source: stores the credentials (the
module-level `pelmClientId` / `pelmSecret`) and returns the fixed bundle of
operations reading them. -/
def PelmSDK (apiClientId apiSecret : String) : SDKBundle :=
  let c : Creds := ⟨apiClientId, apiSecret⟩
  { getConnectToken := getConnectToken c
    getAuthCode := getAuthCode
    getAccessToken := getAccessToken c
    getBillPdfs := getBillPdfs c
    getBillsPelm := getBillsPelm c
    getPelmAccounts := getPelmAccounts c
    getPelmIntervals := getPelmIntervals c
    totalUsageIntervals := totalUsageIntervals
    getOrCreatePelmToken := getOrCreatePelmToken c }

/-- The request issued by `getConnectToken`. -/
def connectTokenRequest (c : Creds) (pelmUserId : String) : Request :=
  ⟨"https://api.pelm.com/auth/connect-token", "POST",
   [("user_id", pelmUserId)],
   [("accept", "application/json"),
    ("pelm-client-id", c.pelmClientId),
    ("pelm-secret", c.pelmSecret)]⟩

/-- The request issued by `getAuthCode`. -/
def connectRequest (utilityProviderCode username password connectToken : String) :
    Request :=
  ⟨"https://api.pelm.com/connect", "POST",
   [("utility_id", utilityProviderCode),
    ("username", username),
    ("password", password)],
   [("accept", "application/json"),
    ("authorization", "Bearer " ++ connectToken)]⟩

/-- The request issued by `getAccessToken`. -/
def tokenRequest (c : Creds) (authCode : String) : Request :=
  ⟨"https://api.pelm.com/auth/token", "POST",
   [("code", authCode)],
   [("accept", "application/json"),
    ("pelm-client-id", c.pelmClientId),
    ("pelm-secret", c.pelmSecret)]⟩

/-- The request issued by `getBillPdfs` for one bill id. -/
def pdfRequest (c : Creds) (pelmAccessToken billId : String) : Request :=
  ⟨"https://api.pelm.com/bills/" ++ billId ++ "/pdf", "GET", [],
   [("accept", "application/pdf"),
    ("authorization", "Bearer " ++ pelmAccessToken),
    ("pelm-client-id", c.pelmClientId),
    ("pelm-secret", c.pelmSecret)]⟩

/-- The request issued by `getPelmIntervals`. -/
def intervalsRequest (c : Creds) (pelmAccountId pelmToken : String)
    (startDate endDate : Option JsDate) : Request :=
  ⟨"https://api.pelm.com/intervals", "GET", [],
   [("account_id", pelmAccountId),
    ("start_date", jsNumToString (dateParam startDate)),
    ("end_date", jsNumToString (dateParam endDate)),
    ("authorization", "Bearer " ++ pelmToken),
    ("pelm-client-id", c.pelmClientId),
    ("pelm-secret", c.pelmSecret)]⟩

/-- The request carries the two credential headers with the given
credential values, comparing header names case-insensitively as HTTP
does. -/
def carriesCreds (c : Creds) (r : Request) : Prop :=
  (∃ p ∈ r.headers, lowerName p.1 = "pelm-client-id" ∧ p.2 = c.pelmClientId) ∧
  (∃ p ∈ r.headers, lowerName p.1 = "pelm-secret" ∧ p.2 = c.pelmSecret)

instance (c : Creds) (r : Request) : Decidable (carriesCreds c r) := by
  unfold carriesCreds
  infer_instance

/-- The world in which every request resolves with the JSON response
`f request`: transport and JSON decoding never reject. -/
def okWorld (f : Request → Json) : World := fun r => .ok (f r)

/-- Unfolding `getBillPdfs`: the issued requests are the pdf requests of
the ids in input order, and the result joins the per-request responses. -/
theorem getBillPdfs_run (c : Creds) (tok : String) (ids : List String) (w : World) :
    getBillPdfs c tok ids w =
      (ids.map (pdfRequest c tok),
       collectAll (ids.map (fun billId => w (pdfRequest c tok billId)))) := by
  unfold getBillPdfs promiseAll getRequest
  refine Prod.ext ?_ ?_
  · show (List.map _ (ids.map _)).flatten = _
    rw [List.map_map]
    induction ids with
    | nil => rfl
    | cons x t ih => simp only [List.map_cons, List.flatten_cons, ih]; rfl
  · show collectAll (List.map _ (ids.map _)) = _
    rw [List.map_map]
    rfl

/-- Evaluation of `collectAll` on all-successful responses is the list of values. -/
theorem collectAll_ok {α : Type} (xs : List α) (g : α → Json) :
    collectAll (xs.map (fun x => .ok (g x))) = .ok (xs.map g) := by
  induction xs with
  | nil => rfl
  | cons x t ih => simp [collectAll, ih, Except.map]

/-- Evaluation of `collectAll` on a list containing a rejection is a rejection. -/
theorem collectAll_error {e : String} {rs : List (Except String Json)}
    (h : Except.error e ∈ rs) : ∃ e2, collectAll rs = .error e2 := by
  induction rs with
  | nil => cases h
  | cons r t ih =>
    match r with
    | .error e1 => exact ⟨e1, rfl⟩
    | .ok j =>
      rcases List.mem_cons.mp h with h1 | h2
      · cases h1
      · obtain ⟨e2, he2⟩ := ih h2
        exact ⟨e2, by simp [collectAll, he2, Except.map]⟩

/-- The date-to-number conversion agrees with `ms / 1000` for every date:
the falsy branch taken at `ms = 0` sends the same number, since
`0 / 1000 = 0`. -/
theorem dateParam_some (ms : Int) : dateParam (some ⟨ms⟩) = (ms : ℚ) / 1000 := by
  by_cases h : ms = 0
  · subst h; simp [dateParam]
  · simp [dateParam, h]

/-- Zero rendered by the `toString` call of the source. -/
theorem jsNumToString_zero : jsNumToString 0 = "0" := by decide

/-- Claim C2: `totalUsageIntervals` returns exactly the sum of the `usage`
fields and the sum of the `ghg_emissions` fields of the interval list, and
`{0, 0}` on an empty interval list.  The operation is modelled as a pure
function because the source, though `async`, issues no request and reads
and writes no state. -/
theorem c2_totalUsageIntervals_sums :
    (∀ resp : IntervalsResponse,
      totalUsageIntervals resp =
        { totalUsage := (resp.intervals.map PelmUsageInterval.usage).sum
          totalEmissions := (resp.intervals.map PelmUsageInterval.ghg_emissions).sum }) ∧
    (∀ (utility : String) (account : AccountsResponse),
      totalUsageIntervals ⟨utility, account, []⟩ = ⟨0, 0⟩) := by
  constructor
  · intro resp
    unfold totalUsageIntervals
    congr 1 <;> rw [List.sum_eq_foldl, List.foldl_map]
  · intro utility account
    rfl

/-- Claim C10: `getBillPdfs` on the empty id list issues no request and
resolves with the empty list, in every world. -/
theorem c10_getBillPdfs_empty (c : Creds) (pelmAccessToken : String) (w : World) :
    getBillPdfs c pelmAccessToken [] w = ([], .ok []) := rfl

/-- Claim C5: when every per-id request succeeds (a world of the shape
`okWorld f`), `getBillPdfs` issues one request per id in input order and
resolves with the list of the per-id responses, the `i`-th element being
the response to the request of the `i`-th id; the join is by index, so response
arrival order cannot affect it. -/
theorem c5_getBillPdfs_order (c : Creds) (tok : String) (ids : List String)
    (f : Request → Json) :
    getBillPdfs c tok ids (okWorld f) =
      (ids.map (pdfRequest c tok),
       .ok (ids.map (fun billId => f (pdfRequest c tok billId)))) ∧
    ∀ i : Nat,
      (ids.map (fun billId => f (pdfRequest c tok billId)))[i]? =
        ids[i]?.map (fun billId => f (pdfRequest c tok billId)) := by
  constructor
  · rw [getBillPdfs_run]
    exact congrArg _ (collectAll_ok ids (fun billId => f (pdfRequest c tok billId)))
  · intro i
    exact List.getElem?_map ..

/-- Claim C6: if the request for at least one of the bill ids rejects,
the whole `getBillPdfs` call rejects — the joined promise is an error, not
a partial list. -/
theorem c6_getBillPdfs_failure (c : Creds) (tok : String) (ids : List String)
    (w : World) (billId : String) (e : String)
    (hmem : billId ∈ ids) (herr : w (pdfRequest c tok billId) = .error e) :
    ∃ e2, (getBillPdfs c tok ids w).2 = .error e2 := by
  rw [getBillPdfs_run]
  exact collectAll_error (List.mem_map.mpr ⟨billId, hmem, herr⟩)

/-- Witness for C6: with one bill id whose request rejects, the call
rejects. -/
theorem c6_getBillPdfs_failure_witness :
    ∃ e2, (getBillPdfs ⟨"cid", "cs"⟩ "tok" ["b1"] (fun _ => .error "boom")).2 =
      .error e2 :=
  c6_getBillPdfs_failure ⟨"cid", "cs"⟩ "tok" ["b1"] (fun _ => .error "boom")
    "b1" "boom" (by decide) rfl

/-- Claim C7: with both dates absent, the single request `getPelmIntervals`
issues carries `start_date = "0"` and `end_date = "0"`. -/
theorem c7_default_dates (c : Creds) (pelmAccountId pelmToken : String) (w : World) :
    ∃ r, getPelmIntervals c pelmAccountId pelmToken none none w = ([r], w r) ∧
      ("start_date", "0") ∈ r.headers ∧ ("end_date", "0") ∈ r.headers := by
  refine ⟨intervalsRequest c pelmAccountId pelmToken none none, rfl, ?_, ?_⟩ <;>
    simp [intervalsRequest, dateParam, jsNumToString_zero]

/-- Claim C8: with `startDate` the date of epoch-millisecond value `ms`
(a valid date, so |ms| ≤ 8.64e15), the request carries
`start_date = String(ms / 1000)`, and symmetrically for `endDate`.  This
includes `ms = 0`, where the falsy branch of the source sends `"0"`, which
equals `String(0 / 1000)`. -/
theorem c8_date_seconds (c : Creds) (pelmAccountId pelmToken : String)
    (ms me : Int) (w : World)
    (_hms : ms.natAbs ≤ 8640000000000000) (_hme : me.natAbs ≤ 8640000000000000) :
    ∃ r, getPelmIntervals c pelmAccountId pelmToken (some ⟨ms⟩) (some ⟨me⟩) w
        = ([r], w r) ∧
      ("start_date", jsNumToString ((ms : ℚ) / 1000)) ∈ r.headers ∧
      ("end_date", jsNumToString ((me : ℚ) / 1000)) ∈ r.headers := by
  refine ⟨intervalsRequest c pelmAccountId pelmToken (some ⟨ms⟩) (some ⟨me⟩),
    rfl, ?_, ?_⟩ <;>
    simp [intervalsRequest, dateParam_some]

/-- Witness for C8 at `ms = 1500`, `me = 0`. -/
theorem c8_date_seconds_witness :
    ∃ r, getPelmIntervals ⟨"cid", "cs"⟩ "acct" "tok" (some ⟨1500⟩) (some ⟨0⟩)
        (fun _ => .ok []) = ([r], (fun _ => .ok []) r) ∧
      ("start_date", jsNumToString ((1500 : Int) / 1000 : ℚ)) ∈ r.headers ∧
      ("end_date", jsNumToString ((0 : Int) / 1000 : ℚ)) ∈ r.headers := by
  have h := c8_date_seconds ⟨"cid", "cs"⟩ "acct" "tok" 1500 0
    (fun _ => .ok []) (by decide) (by decide)
  exact h

/-- Claim C3: under a transport that always delivers (responses given by
`f`), `getOrCreatePelmToken` issues exactly the three requests, in order:
the connect-token request, then the connect request whose Bearer
authorization interpolates the `connect_token` field extracted from the
first response, then the token request whose `code` form field is the
`authorization_code` field extracted from the second response; and it
resolves with the `access_token` field extracted from the third response.
The explicit membership conjuncts exhibit where each extracted field is
sent. -/
theorem c3_token_pipeline (c : Creds)
    (providerCode pelmUserId username password : String) (f : Request → Json) :
    let r1 := connectTokenRequest c pelmUserId
    let connectToken := jsGet (f r1) "connect_token"
    let r2 := connectRequest providerCode username password (undefToString connectToken)
    let authCode := jsGet (f r2) "authorization_code"
    let r3 := tokenRequest c (undefToString authCode)
    getOrCreatePelmToken c providerCode pelmUserId username password (okWorld f) =
        ([r1, r2, r3], .ok (jsGet (f r3) "access_token")) ∧
      ("authorization", "Bearer " ++ undefToString connectToken) ∈ r2.headers ∧
      ("code", undefToString authCode) ∈ r3.body := by
  refine ⟨rfl, ?_, ?_⟩ <;> simp [connectRequest, tokenRequest]

/-- Claim C4: for each pipeline step, when the transport delivers a JSON
response that omits the expected field, the step resolves (no rejection)
with the `undefined` value (`none`). -/
theorem c4_missing_fields (c : Creds) :
    (∀ (pelmUserId : String) (f : Request → Json),
      jsGet (f (connectTokenRequest c pelmUserId)) "connect_token" = none →
      getConnectToken c pelmUserId (okWorld f) =
        ([connectTokenRequest c pelmUserId], .ok none)) ∧
    (∀ (providerCode username password connectToken : String) (f : Request → Json),
      jsGet (f (connectRequest providerCode username password connectToken))
          "authorization_code" = none →
      getAuthCode providerCode username password connectToken (okWorld f) =
        ([connectRequest providerCode username password connectToken], .ok none)) ∧
    (∀ (authCode : String) (f : Request → Json),
      jsGet (f (tokenRequest c authCode)) "access_token" = none →
      getAccessToken c authCode (okWorld f) =
        ([tokenRequest c authCode], .ok none)) := by
  refine ⟨fun pelmUserId f h => ?_, fun providerCode username password ct f h => ?_,
    fun authCode f h => ?_⟩ <;>
    simp [getConnectToken, getAuthCode, getAccessToken, mmap, postRequest, okWorld,
      Except.map, connectTokenRequest, connectRequest, tokenRequest] at h ⊢ <;>
    rw [h]

/-- Witness for C4: a transport answering every request with the empty
JSON object makes all three steps resolve with `undefined`. -/
theorem c4_missing_fields_witness :
    (getConnectToken ⟨"cid", "cs"⟩ "uid" (okWorld (fun _ => [])) =
      ([connectTokenRequest ⟨"cid", "cs"⟩ "uid"], .ok none)) ∧
    (getAuthCode "prov" "user" "pass" "ct" (okWorld (fun _ => [])) =
      ([connectRequest "prov" "user" "pass" "ct"], .ok none)) ∧
    (getAccessToken ⟨"cid", "cs"⟩ "ac" (okWorld (fun _ => [])) =
      ([tokenRequest ⟨"cid", "cs"⟩ "ac"], .ok none)) :=
  ⟨(c4_missing_fields ⟨"cid", "cs"⟩).1 "uid" (fun _ => []) rfl,
   (c4_missing_fields ⟨"cid", "cs"⟩).2.1 "prov" "user" "pass" "ct" (fun _ => []) rfl,
   (c4_missing_fields ⟨"cid", "cs"⟩).2.2 "ac" (fun _ => []) rfl⟩

theorem lowerName_pelm_client_id :
    lowerName "pelm-client-id" = "pelm-client-id" := by decide

theorem lowerName_pelm_secret :
    lowerName "pelm-secret" = "pelm-secret" := by decide

theorem carriesCreds_connectTokenRequest (c : Creds) (pelmUserId : String) :
    carriesCreds c (connectTokenRequest c pelmUserId) :=
  ⟨⟨("pelm-client-id", c.pelmClientId), by simp [connectTokenRequest],
      lowerName_pelm_client_id, rfl⟩,
   ⟨("pelm-secret", c.pelmSecret), by simp [connectTokenRequest],
      lowerName_pelm_secret, rfl⟩⟩

theorem carriesCreds_tokenRequest (c : Creds) (authCode : String) :
    carriesCreds c (tokenRequest c authCode) :=
  ⟨⟨("pelm-client-id", c.pelmClientId), by simp [tokenRequest],
      lowerName_pelm_client_id, rfl⟩,
   ⟨("pelm-secret", c.pelmSecret), by simp [tokenRequest],
      lowerName_pelm_secret, rfl⟩⟩

theorem carriesCreds_pdfRequest (c : Creds) (tok billId : String) :
    carriesCreds c (pdfRequest c tok billId) :=
  ⟨⟨("pelm-client-id", c.pelmClientId), by simp [pdfRequest],
      lowerName_pelm_client_id, rfl⟩,
   ⟨("pelm-secret", c.pelmSecret), by simp [pdfRequest],
      lowerName_pelm_secret, rfl⟩⟩

theorem carriesCreds_intervalsRequest (c : Creds) (acc tok : String)
    (sd ed : Option JsDate) :
    carriesCreds c (intervalsRequest c acc tok sd ed) :=
  ⟨⟨("pelm-client-id", c.pelmClientId), by simp [intervalsRequest],
      lowerName_pelm_client_id, rfl⟩,
   ⟨("pelm-secret", c.pelmSecret), by simp [intervalsRequest],
      lowerName_pelm_secret, rfl⟩⟩

/-- The accounts and bills requests use capitalized header names; HTTP
header names are case-insensitive, so they still carry the credential
headers. -/
theorem carriesCreds_capitalized (c : Creds) (url tok : String) :
    carriesCreds c ⟨url, "GET", [],
      [("Authorization", "Bearer " ++ tok),
       ("Pelm-Client-Id", c.pelmClientId),
       ("Pelm-Secret", c.pelmSecret)]⟩ :=
  ⟨⟨("Pelm-Client-Id", c.pelmClientId), by simp,
      (by decide : lowerName "Pelm-Client-Id" = "pelm-client-id"), rfl⟩,
   ⟨("Pelm-Secret", c.pelmSecret), by simp,
      (by decide : lowerName "Pelm-Secret" = "pelm-secret"), rfl⟩⟩

/-- Claim C1 (counterexample): `getAuthCode`, obtained from the factory,
issues a request that carries neither a `pelm-client-id` nor a
`pelm-secret` header (case-insensitively): its only headers are `accept`
and the Bearer connect token.  This refutes the claim that every operation
of the bundle attaches the credential headers to every outbound request. -/
theorem c1_counterexample :
    ((PelmSDK "cid" "cs").getAuthCode "prov" "user" "pass" "ct"
        (fun _ => .ok [])).1 = [connectRequest "prov" "user" "pass" "ct"] ∧
    ¬ carriesCreds ⟨"cid", "cs"⟩ (connectRequest "prov" "user" "pass" "ct") :=
  ⟨rfl, by decide⟩

/-- Claim C1 (amended): every outbound request issued by the factory bundle
operations after the factory ran carries the `pelm-client-id` and
`pelm-secret` headers (header names compared case-insensitively) with the
values passed to the factory — except the request to the connect endpoint
(the one `getAuthCode` issues, which is also the second of the three
requests of `getOrCreatePelmToken`): that request carries only `accept`
and the Bearer connect-token authorization, no credential headers. -/
theorem c1_credential_headers (apiClientId apiSecret : String) (w : World) :
    (∀ pelmUserId : String,
      ∀ r ∈ ((PelmSDK apiClientId apiSecret).getConnectToken pelmUserId w).1,
        carriesCreds ⟨apiClientId, apiSecret⟩ r) ∧
    (∀ authCode : String,
      ∀ r ∈ ((PelmSDK apiClientId apiSecret).getAccessToken authCode w).1,
        carriesCreds ⟨apiClientId, apiSecret⟩ r) ∧
    (∀ tok : String,
      ∀ r ∈ ((PelmSDK apiClientId apiSecret).getPelmAccounts tok w).1,
        carriesCreds ⟨apiClientId, apiSecret⟩ r) ∧
    (∀ tok : String,
      ∀ r ∈ ((PelmSDK apiClientId apiSecret).getBillsPelm tok w).1,
        carriesCreds ⟨apiClientId, apiSecret⟩ r) ∧
    (∀ (tok : String) (ids : List String),
      ∀ r ∈ ((PelmSDK apiClientId apiSecret).getBillPdfs tok ids w).1,
        carriesCreds ⟨apiClientId, apiSecret⟩ r) ∧
    (∀ (acc tok : String) (sd ed : Option JsDate),
      ∀ r ∈ ((PelmSDK apiClientId apiSecret).getPelmIntervals acc tok sd ed w).1,
        carriesCreds ⟨apiClientId, apiSecret⟩ r) ∧
    (∀ providerCode pelmUserId username password : String,
      ∀ r ∈ ((PelmSDK apiClientId apiSecret).getOrCreatePelmToken
          providerCode pelmUserId username password w).1,
        r.url ≠ "https://api.pelm.com/connect" →
        carriesCreds ⟨apiClientId, apiSecret⟩ r) ∧
    (∀ providerCode username password connectToken : String,
      ∀ r ∈ ((PelmSDK apiClientId apiSecret).getAuthCode
          providerCode username password connectToken w).1,
        r.url ≠ "https://api.pelm.com/connect" →
        carriesCreds ⟨apiClientId, apiSecret⟩ r) := by
  refine ⟨?_, ?_, ?_, ?_, ?_, ?_, ?_, ?_⟩
  · intro pelmUserId r hr
    have hr2 : r ∈ [connectTokenRequest ⟨apiClientId, apiSecret⟩ pelmUserId] := hr
    rcases List.mem_singleton.mp hr2 with rfl
    exact carriesCreds_connectTokenRequest _ _
  · intro authCode r hr
    have hr2 : r ∈ [tokenRequest ⟨apiClientId, apiSecret⟩ authCode] := hr
    rcases List.mem_singleton.mp hr2 with rfl
    exact carriesCreds_tokenRequest _ _
  · intro tok r hr
    have hr2 : r ∈ [(⟨"https://api.pelm.com/accounts", "GET", [],
        [("Authorization", "Bearer " ++ tok),
         ("Pelm-Client-Id", apiClientId),
         ("Pelm-Secret", apiSecret)]⟩ : Request)] := hr
    rcases List.mem_singleton.mp hr2 with rfl
    exact carriesCreds_capitalized ⟨apiClientId, apiSecret⟩ _ _
  · intro tok r hr
    have hr2 : r ∈ [(⟨"https://api.pelm.com/bills", "GET", [],
        [("Authorization", "Bearer " ++ tok),
         ("Pelm-Client-Id", apiClientId),
         ("Pelm-Secret", apiSecret)]⟩ : Request)] := hr
    rcases List.mem_singleton.mp hr2 with rfl
    exact carriesCreds_capitalized ⟨apiClientId, apiSecret⟩ _ _
  · intro tok ids r hr
    have hr2 : r ∈ (getBillPdfs ⟨apiClientId, apiSecret⟩ tok ids w).1 := hr
    rw [getBillPdfs_run] at hr2
    simp only [] at hr2
    rcases List.mem_map.mp hr2 with ⟨billId, _, rfl⟩
    exact carriesCreds_pdfRequest _ _ _
  · intro acc tok sd ed r hr
    have hr2 : r ∈ [intervalsRequest ⟨apiClientId, apiSecret⟩ acc tok sd ed] := hr
    rcases List.mem_singleton.mp hr2 with rfl
    exact carriesCreds_intervalsRequest _ _ _ _ _
  · intro providerCode pelmUserId username password r hr hurl
    have hr2 : r ∈ (getOrCreatePelmToken ⟨apiClientId, apiSecret⟩
        providerCode pelmUserId username password w).1 := hr
    simp only [getOrCreatePelmToken, mbind, getConnectToken, getAuthCode,
      getAccessToken, mmap, postRequest] at hr2
    cases h1 : w (connectTokenRequest ⟨apiClientId, apiSecret⟩ pelmUserId) with
    | error e =>
      simp only [connectTokenRequest] at h1
      simp only [h1, Except.map] at hr2
      rcases List.mem_singleton.mp hr2 with rfl
      exact carriesCreds_connectTokenRequest _ _
    | ok j1 =>
      simp only [connectTokenRequest] at h1
      simp only [h1, Except.map] at hr2
      cases h2 : w (connectRequest providerCode username password
          (undefToString (jsGet j1 "connect_token"))) with
      | error e =>
        simp only [connectRequest] at h2
        simp only [h2, Except.map] at hr2
        rcases List.mem_cons.mp hr2 with rfl | hr3
        · exact carriesCreds_connectTokenRequest _ _
        · rcases List.mem_singleton.mp hr3 with rfl
          exact absurd rfl hurl
      | ok j2 =>
        simp only [connectRequest] at h2
        simp only [h2, Except.map] at hr2
        rcases List.mem_cons.mp hr2 with rfl | hr3
        · exact carriesCreds_connectTokenRequest _ _
        · rcases List.mem_cons.mp hr3 with rfl | hr4
          · exact absurd rfl hurl
          · rcases List.mem_singleton.mp hr4 with rfl
            exact carriesCreds_tokenRequest _ _
  · intro providerCode username password connectToken r hr hurl
    have hr2 : r ∈ [connectRequest providerCode username password connectToken] := hr
    rcases List.mem_singleton.mp hr2 with rfl
    exact absurd rfl hurl

/-- Witness for the amended C1: the concrete connect-token request of a
concretely constructed bundle carries the credential headers. -/
theorem c1_credential_headers_witness :
    carriesCreds ⟨"cid", "cs"⟩ (connectTokenRequest ⟨"cid", "cs"⟩ "uid") :=
  (c1_credential_headers "cid" "cs" (fun _ => .ok [])).1 "uid"
    (connectTokenRequest ⟨"cid", "cs"⟩ "uid") (by decide)

/-- Claim C9 (counterexample): at concrete inputs, the single request
`getPelmIntervals` issues has an empty body and a query-less URL —
`account_id` is not among any body/query field of the request; it sits in
the header list instead (together with `start_date` and `end_date`),
because the source passes all six entries as the `headers` argument of
`getRequest`.  This refutes the claim that `account_id`, `start_date` and
`end_date` are carried as body/query fields while only the token and
credentials are headers. -/
theorem c9_counterexample :
    (getPelmIntervals ⟨"cid", "cs"⟩ "acct" "tok" none none (fun _ => .ok [])).1 =
        [intervalsRequest ⟨"cid", "cs"⟩ "acct" "tok" none none] ∧
    (intervalsRequest ⟨"cid", "cs"⟩ "acct" "tok" none none).url =
        "https://api.pelm.com/intervals" ∧
    (intervalsRequest ⟨"cid", "cs"⟩ "acct" "tok" none none).body = [] ∧
    (∀ p ∈ (intervalsRequest ⟨"cid", "cs"⟩ "acct" "tok" none none).body,
        p.1 ≠ "account_id") ∧
    ("account_id", "acct") ∈
        (intervalsRequest ⟨"cid", "cs"⟩ "acct" "tok" none none).headers := by
  refine ⟨rfl, rfl, rfl, ?_, ?_⟩
  · decide
  · decide

/-- Claim C9 (amended): every request issued by `getPelmIntervals` is a
GET to the intervals endpoint with no body and no query string, and
`account_id`, `start_date`, `end_date`, the Bearer authorization and the
client credentials are all carried in the request headers. -/
theorem c9_fields_in_headers (c : Creds) (pelmAccountId pelmToken : String)
    (startDate endDate : Option JsDate) (w : World) :
    getPelmIntervals c pelmAccountId pelmToken startDate endDate w =
      ([intervalsRequest c pelmAccountId pelmToken startDate endDate],
       w (intervalsRequest c pelmAccountId pelmToken startDate endDate)) ∧
    (intervalsRequest c pelmAccountId pelmToken startDate endDate).method = "GET" ∧
    (intervalsRequest c pelmAccountId pelmToken startDate endDate).url =
      "https://api.pelm.com/intervals" ∧
    (intervalsRequest c pelmAccountId pelmToken startDate endDate).body = [] ∧
    ("account_id", pelmAccountId) ∈
      (intervalsRequest c pelmAccountId pelmToken startDate endDate).headers ∧
    ("start_date", jsNumToString (dateParam startDate)) ∈
      (intervalsRequest c pelmAccountId pelmToken startDate endDate).headers ∧
    ("end_date", jsNumToString (dateParam endDate)) ∈
      (intervalsRequest c pelmAccountId pelmToken startDate endDate).headers ∧
    ("authorization", "Bearer " ++ pelmToken) ∈
      (intervalsRequest c pelmAccountId pelmToken startDate endDate).headers ∧
    carriesCreds c (intervalsRequest c pelmAccountId pelmToken startDate endDate) := by
  refine ⟨rfl, rfl, rfl, rfl, ?_, ?_, ?_, ?_,
    carriesCreds_intervalsRequest c pelmAccountId pelmToken startDate endDate⟩ <;>
    simp [intervalsRequest]

end Pelm

-- scratch sanity checks
example : Pelm.jsGet [("a", "1"), ("b", "2")] "b" = some "2" := by decide
example : Pelm.jsGet [] "a" = none := by decide
example : Pelm.lowerName "Pelm-Client-Id" = "pelm-client-id" := by decide
example : Pelm.jsNumToString 0 = "0" := by decide
example : Pelm.jsNumToString ⟨3, 2, by norm_num, by norm_num⟩ = "1.5" := by decide
example : Pelm.jsNumToString ⟨-1, 1000, by norm_num, by norm_num⟩ = "-0.001" := by decide
example : Pelm.jsNumToString ⟨1612137600, 1, by norm_num, by norm_num⟩ = "1612137600" := by decide
example : Pelm.dateParam (some ⟨0⟩) = 0 := by simp [Pelm.dateParam]
